import Mathlib

/-!
Verification of the Location Dataset Normalizer / safe-route app
(src/main.py) against its natural-language specification.

The source is a single Streamlit script.  We shallowly embed the parts the
claims are about:

* `load_and_process_data` (src/main.py lines 30-65): reads a CSV with
  `pd.read_csv`, applies a pyproj transform EPSG:5174 → EPSG:4326 to the
  fixed columns `y좌표` (treated as easting) and `x좌표` (treated as
  northing), selects a fixed column list, and on any exception returns an
  empty DataFrame.

* the nearby-risk selection (src/main.py lines 160-174): a cKDTree over the
  dataset's `(lat, lon)` pairs is queried with `query_ball_point` at radius
  `0.003` for each point of the route path (sampled `[::5]` when the path
  has more than 100 points), the returned index lists are unioned into a
  set, and `df_safety.iloc` of that set is the selection.

* the per-route metrics (src/main.py lines 148-152, 239-240): distance and
  duration come verbatim from the routing-service response
  (`distance / 1000` km, `duration / 60` min), and the displayed risk
  count is `len(nearby_risks)`.

Modelling conventions: machine floats are modelled as `ℚ`; the pyproj
transformer is an external library and is modelled as an explicit parameter
`T : ℚ → ℚ → ℚ × ℚ` mapping `(easting, northing)` to `(lon, lat)`; a CSV
cell parses to a number or stays a string; a file on disk is modelled by
what each candidate text encoding would decode it to.  Rows are modelled
with their cells in column order; a row lacking a needed cell makes the
whole load fail, matching the source's catch-all `except` which turns any
error into an empty dataset.
-/

/-- A raw cell of the CSV table: pandas parses each cell as a number or
keeps it as a string. -/
inductive Cell where
  | num (q : ℚ)
  | str (s : String)
deriving DecidableEq

/-- A parsed CSV table: the header row and the data rows (cells in column
order). -/
structure Table where
  headers : List String
  rows : List (List Cell)
deriving DecidableEq

/-- Index of the column with the given header, as pandas column lookup
(first occurrence). -/
def colIdx (t : Table) (h : String) : Option Nat :=
  t.headers.findIdx? (fun s => s == h)

/-- Numeric view of a cell; a string cell has no numeric value (the
transformer raises on it, which the source's catch-all turns into an empty
dataset). -/
def getNum : Cell → Option ℚ
  | Cell.num q => some q
  | Cell.str _ => none

/-- src/main.py lines 48-53: `transform_coords` feeds `row['y좌표']` as
easting and `row['x좌표']` as northing to the transformer, which returns
`(lon, lat)`; the produced Series is `(lat, lon)`. -/
def transform_coords (T : ℚ → ℚ → ℚ × ℚ) (easting northing : ℚ) : ℚ × ℚ :=
  ((T easting northing).2, (T easting northing).1)

/-- One record of the processed dataset: the source keeps exactly the
columns `['노드명', '노드위치', '교차로안전등급', '교차로위험수준',
'사고카운트', 'lat', 'lon']` (src/main.py line 60). -/
structure OutRecord where
  nodeName : Cell
  nodeLoc : Cell
  grade : Cell
  risk : Cell
  accidents : Cell
  lat : ℚ
  lon : ℚ
deriving DecidableEq

/-- Build the output record of one row, given the column indices of
`y좌표`, `x좌표`, `노드명`, `노드위치`, `교차로안전등급`,
`교차로위험수준`, `사고카운트`.  `none` is the exception path. -/
def mkRecord (T : ℚ → ℚ → ℚ × ℚ) (iy ix i1 i2 i3 i4 i5 : Nat)
    (row : List Cell) : Option OutRecord := do
  let yc ← row.get? iy
  let xc ← row.get? ix
  let easting ← getNum yc
  let northing ← getNum xc
  let ll := transform_coords T easting northing
  let n1 ← row.get? i1
  let n2 ← row.get? i2
  let n3 ← row.get? i3
  let n4 ← row.get? i4
  let n5 ← row.get? i5
  pure { nodeName := n1, nodeLoc := n2, grade := n3, risk := n4,
         accidents := n5, lat := ll.1, lon := ll.2 }

/-- Apply `f` to every element; any failure fails the whole list.  This is
`df.apply` with exception propagation: one bad row aborts everything. -/
def mapOption (f : α → Option β) : List α → Option (List β)
  | [] => some []
  | x :: xs =>
    match f x, mapOption f xs with
    | some y, some ys => some (y :: ys)
    | _, _ => none

/-- The body of the `try` block of `load_and_process_data` after
`pd.read_csv`: look up the fixed columns, transform every row, keep the
fixed column list.  `none` is the exception path (missing column or
non-numeric coordinate cell). -/
def loadOk (T : ℚ → ℚ → ℚ × ℚ) (t : Table) : Option (List OutRecord) := do
  let iy ← colIdx t "y좌표"
  let ix ← colIdx t "x좌표"
  let i1 ← colIdx t "노드명"
  let i2 ← colIdx t "노드위치"
  let i3 ← colIdx t "교차로안전등급"
  let i4 ← colIdx t "교차로위험수준"
  let i5 ← colIdx t "사고카운트"
  mapOption (mkRecord T iy ix i1 i2 i3 i4 i5) t.rows

/-- `load_and_process_data` restricted to an already-parsed table: the
`except` branch (src/main.py lines 63-65) returns an empty DataFrame. -/
def processTable (T : ℚ → ℚ → ℚ × ℚ) (t : Table) : List OutRecord :=
  (loadOk T t).getD []

/-- The candidate text encodings the specification talks about. -/
inductive Encoding where
  | cp949
  | utf8
  | utf8sig
  | euckr
deriving DecidableEq

/-- A file on disk, modelled by what each candidate encoding decodes it to
(`none`: that decode fails).  A missing file is `Option.none` at the outer
level. -/
def FileModel : Type := Encoding → Option Table

/-- `pd.read_csv(filepath)` as called at src/main.py line 32: a single
decode attempt with pandas' default encoding, UTF-8. -/
def read_csv (d : FileModel) : Option Table :=
  d Encoding.utf8

/-- src/main.py lines 30-65, `load_and_process_data`: read the CSV and
process it; every failure (missing file, undecodable file, missing column,
non-numeric coordinate) lands in the catch-all `except` and yields an
empty dataset. -/
def load_and_process_data (T : ℚ → ℚ → ℚ × ℚ) (file : Option FileModel) :
    List OutRecord :=
  match file with
  | none => []
  | some d =>
    match read_csv d with
    | none => []
    | some t => processTable T t

/-- The South Korea bounding box the spec states as the validity invariant:
`33.0 <= latitude <= 39.0` and `124.0 <= longitude <= 133.0`. -/
def inBounds (lat lon : ℚ) : Prop :=
  33 ≤ lat ∧ lat ≤ 39 ∧ 124 ≤ lon ∧ lon ≤ 133

instance (lat lon : ℚ) : Decidable (inBounds lat lon) := by
  unfold inBounds; infer_instance

/-- A routing-service response as used by the source (src/main.py lines
101-103, 144-150): GeoJSON coordinates as `(lon, lat)` pairs, distance in
metres, duration in seconds. -/
structure RouteData where
  coordinates : List (ℚ × ℚ)
  distance : ℚ
  duration : ℚ
deriving DecidableEq

/-- src/main.py line 146: swap each `(lon, lat)` pair into `(lat, lon)`. -/
def path_latlon (r : RouteData) : List (ℚ × ℚ) :=
  r.coordinates.map (fun p => (p.2, p.1))

/-- src/main.py line 149: distance in km. -/
def distance_km (r : RouteData) : ℚ :=
  r.distance / 1000

/-- src/main.py line 150: duration in minutes, straight from the response's
`duration` field. -/
def duration_min (r : RouteData) : ℚ :=
  r.duration / 60

/-- The query radius of src/main.py line 168. -/
def nearRadius : ℚ := 3 / 1000

/-- `cKDTree.query_ball_point` membership at radius `nearRadius`:
Euclidean distance at most the radius, expressed on squares to stay in
`ℚ`. -/
def withinRadius (p v : ℚ × ℚ) : Bool :=
  decide ((p.1 - v.1) * (p.1 - v.1) + (p.2 - v.2) * (p.2 - v.2) ≤
    nearRadius * nearRadius)

/-- NumPy slicing `path_points[::5]` (src/main.py line 165): the elements
at indices 0, 5, 10, .... -/
def everyFifth (l : List (ℚ × ℚ)) : List (ℚ × ℚ) :=
  ((List.range l.length).filter (fun i => i % 5 == 0)).filterMap
    (fun i => l.get? i)

/-- src/main.py lines 163-165: the path points actually queried — all of
them, unless the path has more than 100 points, in which case every fifth
point. -/
def sampledPath (path : List (ℚ × ℚ)) : List (ℚ × ℚ) :=
  if 100 < path.length then everyFifth path else path

/-- src/main.py lines 160-174: the rows of the safety dataset whose
`(lat, lon)` point lies within `nearRadius` of some queried path point.
The source unions the per-point KDTree index lists into a set and takes
`df.iloc` of it; the resulting row set is exactly this filter. -/
def nearbyRisks (data : List OutRecord) (path : List (ℚ × ℚ)) :
    List OutRecord :=
  data.filter (fun r => (sampledPath path).any (withinRadius (r.lat, r.lon)))

/-- src/main.py line 240: the displayed "주변 위험 요소 감지" metric is
`len(nearby_risks)`. -/
def detectedCount (data : List OutRecord) (path : List (ℚ × ℚ)) : Nat :=
  (nearbyRisks data path).length

/-! ### Specification-side definitions

These definitions follow the specification's words, not the source; they
exist only to compare the claimed behaviour with the embedded code. -/

/-- Modelled from the spec (§4.1): the ordered candidate encodings — a
Korean 8-bit legacy encoding, UTF-8, UTF-8 with byte-order mark, a second
legacy Korean encoding. -/
def encodingCandidates : List Encoding :=
  [Encoding.cp949, Encoding.utf8, Encoding.utf8sig, Encoding.euckr]

/-- Modelled from the spec (§4.1): try the candidate encodings in order and
return the first successful decode. -/
def specDecode (d : FileModel) : Option Table :=
  encodingCandidates.findSome? d

/-- Modelled from the spec (§4.2): latitude keywords — the transliterated
word for latitude and the letter `y`. -/
def latKeywords : List String := ["위도", "y"]

/-- Modelled from the spec (§4.2): longitude keywords — the word for
longitude and the letter `x`. -/
def lonKeywords : List String := ["경도", "x"]

/-- Modelled from the spec (§4.2): strip surrounding whitespace from a
header and lowercase it, as a character list. -/
def normHeader (h : String) : List Char :=
  (((h.data.dropWhile Char.isWhitespace).reverse.dropWhile
      Char.isWhitespace).reverse).map Char.toLower

/-- Whether `needle` occurs at the start of `hay`. -/
def seqStartsWith : List Char → List Char → Bool
  | [], _ => true
  | _ :: _, [] => false
  | a :: as, b :: bs => a == b && seqStartsWith as bs

/-- Whether `needle` occurs anywhere inside `hay` (substring test). -/
def seqContains (needle : List Char) : List Char → Bool
  | [] => needle.isEmpty
  | b :: bs => seqStartsWith needle (b :: bs) || seqContains needle bs

/-- Modelled from the spec (§4.2): case-insensitive substring match of a
keyword against a whitespace-stripped header. -/
def headerMatches (kws : List String) (h : String) : Bool :=
  kws.any (fun k => seqContains (k.data.map Char.toLower) (normHeader h))

/-- Modelled from the spec (§4.2): first header matching a keyword wins. -/
def findByKeyword (t : Table) (kws : List String) : Option Nat :=
  t.headers.findIdx? (fun h => headerMatches kws h)

/-- The numeric values present in column `i`. -/
def colNums (t : Table) (i : Nat) : List ℚ :=
  t.rows.filterMap (fun row => (row.get? i).bind getNum)

/-- Modelled from the spec (§4.2): the mean of the non-missing numeric
values of a column, when it has any. -/
def colMean (t : Table) (i : Nat) : Option ℚ :=
  match colNums t i with
  | [] => none
  | vs => some (vs.sum / vs.length)

/-- Modelled from the spec (§4.2): value-range inference — the first
column whose mean of non-missing numeric values lies in the given range. -/
def findByRange (t : Table) (lo hi : ℚ) : Option Nat :=
  (List.range t.headers.length).find?
    (fun i =>
      match colMean t i with
      | some m => decide (lo ≤ m ∧ m ≤ hi)
      | none => false)

/-- Modelled from the spec (§4.2): the latitude column — keyword scan
first, value-range fallback over `[33, 39]` second. -/
def specInferLat (t : Table) : Option Nat :=
  (findByKeyword t latKeywords).orElse (fun _ => findByRange t 33 39)

/-- Modelled from the spec (§4.2): the longitude column — keyword scan
first, value-range fallback over `[124, 132]` second. -/
def specInferLon (t : Table) : Option Nat :=
  (findByKeyword t lonKeywords).orElse (fun _ => findByRange t 124 132)

/-- Modelled from the spec (§4.2): both coordinate columns, or the
`ColumnInferenceError` condition (`none`). -/
def specInferLatLon (t : Table) : Option (Nat × Nat) :=
  match specInferLat t, specInferLon t with
  | some a, some b => some (a, b)
  | _, _ => none

/-- Modelled from the spec (§6, §8): estimated walking time in minutes for
a distance in km at the stated walking speed of 4 km/h. -/
def specWalkMinutes (distKm : ℚ) : ℚ :=
  distKm / 4 * 60

/-- The spec's high-risk test (§6): risk score at least 70 on the 0-100
scale, read from the record's risk cell. -/
def riskAtLeast70 (r : OutRecord) : Bool :=
  match r.risk with
  | Cell.num q => decide (70 ≤ q)
  | Cell.str _ => false

/-! ### Concrete fixtures -/

/-- A concrete stand-in for the external pyproj transformer, used to
instantiate counterexamples and witnesses: it returns its input pair as
`(lon, lat)`.  The real EPSG:5174 → WGS84 transform likewise maps inputs
far from the Korean TM grid to points far outside South Korea. -/
def Tid : ℚ → ℚ → ℚ × ℚ := fun e n => (e, n)

/-- The header row of the real dataset. -/
def headers7 : List String :=
  ["노드명", "노드위치", "교차로안전등급", "교차로위험수준", "사고카운트",
   "y좌표", "x좌표"]

/-- A data row in the real dataset's shape. -/
def rowA : List Cell :=
  [Cell.str "A", Cell.str "서울", Cell.str "C", Cell.num 50, Cell.num 3,
   Cell.num 200000, Cell.num 450000]

/-- A one-row table in the real dataset's shape. -/
def tblA : Table := ⟨headers7, [rowA]⟩

/-- The record the loader produces from `rowA` under `Tid`. -/
def recA : OutRecord :=
  { nodeName := Cell.str "A", nodeLoc := Cell.str "서울",
    grade := Cell.str "C", risk := Cell.num 50, accidents := Cell.num 3,
    lat := 450000, lon := 200000 }

/-- A file that decodes to `tblA` under every encoding. -/
def fileA : Option FileModel := some (fun _ => some tblA)

/-! ### General lemmas about the embedding -/

theorem mapOption_some_length {f : α → Option β} {l : List α} {ys : List β}
    (h : mapOption f l = some ys) : ys.length = l.length := by
  induction l generalizing ys with
  | nil => simp [mapOption] at h; simp [← h]
  | cons x xs ih =>
    simp only [mapOption] at h
    cases hx : f x with
    | none => simp [hx] at h
    | some y =>
      cases hxs : mapOption f xs with
      | none => simp [hx, hxs] at h
      | some zs =>
        simp [hx, hxs] at h
        subst h
        simp [ih hxs]

theorem mapOption_some_get? {f : α → Option β} {l : List α} {ys : List β}
    (h : mapOption f l = some ys) (i : Nat) :
    ys.get? i = (l.get? i).bind f := by
  induction l generalizing ys i with
  | nil => simp [mapOption] at h; subst h; simp
  | cons x xs ih =>
    simp only [mapOption] at h
    cases hx : f x with
    | none => simp [hx] at h
    | some y =>
      cases hxs : mapOption f xs with
      | none => simp [hx, hxs] at h
      | some zs =>
        simp [hx, hxs] at h
        subst h
        cases i with
        | zero => simp [hx]
        | succ j => simpa using ih hxs j

theorem mapOption_eq_none_of_mem {f : α → Option β} {l : List α} {x : α}
    (hx : x ∈ l) (hf : f x = none) : mapOption f l = none := by
  induction l with
  | nil => cases hx
  | cons a as ih =>
    rcases List.mem_cons.mp hx with h | h
    · subst h
      simp [mapOption, hf]
    · simp only [mapOption, ih h]
      cases f a <;> rfl

theorem mapOption_countP {f : α → Option β} {p : β → Bool} {q : α → Bool}
    (hpq : ∀ x y, f x = some y → p y = q x) :
    ∀ {l : List α} {ys : List β}, mapOption f l = some ys →
      ys.countP p = l.countP q := by
  intro l
  induction l with
  | nil => intro ys h; simp [mapOption] at h; subst h; simp
  | cons x xs ih =>
    intro ys h
    simp only [mapOption] at h
    cases hx : f x with
    | none => simp [hx] at h
    | some y =>
      cases hxs : mapOption f xs with
      | none => simp [hx, hxs] at h
      | some zs =>
        simp [hx, hxs] at h
        subst h
        simp [List.countP_cons, ih hxs, hpq x y hx]

theorem getNum_eq_some {c : Cell} {q : ℚ} :
    getNum c = some q ↔ c = Cell.num q := by
  cases c <;> simp [getNum]

/-- Unfolding a successful `mkRecord`: the record's fields are exactly the
row's cells at the given indices, and its coordinates are exactly the
transformer's output on the row's raw coordinate cells. -/
theorem mkRecord_some {T : ℚ → ℚ → ℚ × ℚ} {iy ix i1 i2 i3 i4 i5 : Nat}
    {row : List Cell} {r : OutRecord}
    (h : mkRecord T iy ix i1 i2 i3 i4 i5 row = some r) :
    ∃ e n, row.get? iy = some (Cell.num e) ∧ row.get? ix = some (Cell.num n) ∧
      row.get? i1 = some r.nodeName ∧ row.get? i2 = some r.nodeLoc ∧
      row.get? i3 = some r.grade ∧ row.get? i4 = some r.risk ∧
      row.get? i5 = some r.accidents ∧
      r.lat = (T e n).2 ∧ r.lon = (T e n).1 := by
  simp only [mkRecord, bind, Option.bind_eq_some, pure, Option.some.injEq] at h
  obtain ⟨yc, hyc, xc, hxc, e, he, n, hn, n1, h1, n2, h2, n3, h3, n4, h4,
    n5, h5, hr⟩ := h
  subst hr
  refine ⟨e, n, ?_, ?_, h1, h2, h3, h4, h5, rfl, rfl⟩
  · rw [hyc, getNum_eq_some.mp he]
  · rw [hxc, getNum_eq_some.mp hn]

theorem mem_everyFifth {l : List (ℚ × ℚ)} {v : ℚ × ℚ} :
    v ∈ everyFifth l ↔ ∃ i, i % 5 = 0 ∧ l.get? i = some v := by
  simp only [everyFifth, List.mem_filterMap, List.mem_filter, List.mem_range]
  constructor
  · rintro ⟨i, ⟨-, hmod⟩, hget⟩
    exact ⟨i, by simpa using hmod, hget⟩
  · rintro ⟨i, hmod, hget⟩
    refine ⟨i, ⟨?_, by simpa using hmod⟩, hget⟩
    rcases List.get?_eq_some.mp hget with ⟨hlt, -⟩
    exact hlt

theorem mem_sampledPath {path : List (ℚ × ℚ)} {v : ℚ × ℚ} :
    v ∈ sampledPath path ↔
      ∃ i, path.get? i = some v ∧ (path.length ≤ 100 ∨ i % 5 = 0) := by
  unfold sampledPath
  by_cases h : 100 < path.length
  · simp only [h, if_true, mem_everyFifth]
    constructor
    · rintro ⟨i, hmod, hget⟩
      exact ⟨i, hget, Or.inr hmod⟩
    · rintro ⟨i, hget, hor⟩
      rcases hor with hle | hmod
      · omega
      · exact ⟨i, hmod, hget⟩
  · simp only [h, if_false]
    rw [List.mem_iff_get?]
    constructor
    · rintro ⟨i, hget⟩
      exact ⟨i, hget, Or.inl (by omega)⟩
    · rintro ⟨i, hget, -⟩
      exact ⟨i, hget⟩

/-- Unfolding a successful `loadOk`: all seven fixed columns were found and
every row was transformed. -/
theorem loadOk_some {T : ℚ → ℚ → ℚ × ℚ} {t : Table} {recs : List OutRecord}
    (h : loadOk T t = some recs) :
    ∃ iy ix i1 i2 i3 i4 i5,
      colIdx t "y좌표" = some iy ∧ colIdx t "x좌표" = some ix ∧
      colIdx t "노드명" = some i1 ∧ colIdx t "노드위치" = some i2 ∧
      colIdx t "교차로안전등급" = some i3 ∧
      colIdx t "교차로위험수준" = some i4 ∧
      colIdx t "사고카운트" = some i5 ∧
      mapOption (mkRecord T iy ix i1 i2 i3 i4 i5) t.rows = some recs := by
  simp only [loadOk, bind, Option.bind_eq_some] at h
  obtain ⟨iy, hy, ix, hx, i1, h1, i2, h2, i3, h3, i4, h4, i5, h5, hm⟩ := h
  exact ⟨iy, ix, i1, i2, i3, i4, i5, hy, hx, h1, h2, h3, h4, h5, hm⟩

/-! ### Claims -/

/-- Claim C9 (confirmed): for every computed route, the rows selected as
nearby risks are exactly the dataset rows whose `(lat, lon)` point lies
within Euclidean distance `0.003` (expressed on squared distances, as
`withinRadius`) of at least one queried path vertex; every vertex is
queried when the path has at most 100 vertices and only every fifth vertex
otherwise; and the selection is a sublist of the dataset, so each dataset
row appears at most once. -/
theorem C9_nearby_selection (data : List OutRecord) (path : List (ℚ × ℚ)) :
    List.Sublist (nearbyRisks data path) data ∧
    ∀ r, r ∈ nearbyRisks data path ↔
      (r ∈ data ∧ ∃ i v, path.get? i = some v ∧
        (path.length ≤ 100 ∨ i % 5 = 0) ∧
        withinRadius (r.lat, r.lon) v = true) := by
  constructor
  · exact List.filter_sublist data
  · intro r
    rw [nearbyRisks, List.mem_filter]
    constructor
    · rintro ⟨hmem, hany⟩
      rcases List.any_eq_true.mp hany with ⟨v, hv, hw⟩
      rcases mem_sampledPath.mp hv with ⟨i, hget, hcond⟩
      exact ⟨hmem, i, v, hget, hcond, hw⟩
    · rintro ⟨hmem, i, v, hget, hcond, hw⟩
      exact ⟨hmem,
        List.any_eq_true.mpr ⟨v, mem_sampledPath.mpr ⟨i, hget, hcond⟩, hw⟩⟩

/-- Claim C10 (confirmed): whenever loading succeeds, the output has
exactly one record per input row, in file order (record `i` is built from
row `i`); rows are never dropped, reordered or deduplicated; and every
failure path yields the empty dataset rather than a partial one. -/
theorem C10_row_preservation (T : ℚ → ℚ → ℚ × ℚ) (file : Option FileModel) :
    load_and_process_data T file = [] ∨
    ∃ d t recs iy ix i1 i2 i3 i4 i5,
      file = some d ∧ read_csv d = some t ∧ loadOk T t = some recs ∧
      load_and_process_data T file = recs ∧
      recs.length = t.rows.length ∧
      colIdx t "y좌표" = some iy ∧ colIdx t "x좌표" = some ix ∧
      colIdx t "노드명" = some i1 ∧ colIdx t "노드위치" = some i2 ∧
      colIdx t "교차로안전등급" = some i3 ∧
      colIdx t "교차로위험수준" = some i4 ∧
      colIdx t "사고카운트" = some i5 ∧
      ∀ i, recs.get? i = (t.rows.get? i).bind
        (mkRecord T iy ix i1 i2 i3 i4 i5) := by
  cases file with
  | none => exact Or.inl rfl
  | some d =>
    cases hd : read_csv d with
    | none => exact Or.inl (by simp [load_and_process_data, hd])
    | some t =>
      cases hk : loadOk T t with
      | none =>
        exact Or.inl (by simp [load_and_process_data, hd, processTable, hk])
      | some recs =>
        right
        obtain ⟨iy, ix, i1, i2, i3, i4, i5, hy, hx, h1, h2, h3, h4, h5, hm⟩ :=
          loadOk_some hk
        exact ⟨d, t, recs, iy, ix, i1, i2, i3, i4, i5, rfl, hd, hk,
          by simp [load_and_process_data, hd, processTable, hk],
          mapOption_some_length hm, hy, hx, h1, h2, h3, h4, h5,
          fun i => mapOption_some_get? hm i⟩

/-- Claim C1, counterexample: the loader applies no bounding-box check, so
out-of-range coordinates do appear in the output of
`load_and_process_data`.  Here the (external) transform sends the row's
raw planar values to a point far outside South Korea — as the real
EPSG:5174 → WGS84 transform does for inputs outside its grid — and the
record is kept anyway. -/
theorem C1_counterexample :
    load_and_process_data Tid fileA = [recA] ∧
    ¬ inBounds recA.lat recA.lon :=
  ⟨rfl, by decide⟩

/-- Claim C1, amended: `load_and_process_data` performs no bounding-box
filtering at all — every output record's coordinates are exactly the
transformer's output on that row's raw coordinate cells, whatever they
are. -/
theorem C1_coords_unfiltered (T : ℚ → ℚ → ℚ × ℚ) (t : Table)
    (recs : List OutRecord) (iy ix i : Nat) (r : OutRecord)
    (row : List Cell)
    (hk : loadOk T t = some recs)
    (hy : colIdx t "y좌표" = some iy) (hx : colIdx t "x좌표" = some ix)
    (hr : recs.get? i = some r) (hrow : t.rows.get? i = some row) :
    ∃ e n, row.get? iy = some (Cell.num e) ∧
      row.get? ix = some (Cell.num n) ∧
      r.lat = (T e n).2 ∧ r.lon = (T e n).1 := by
  obtain ⟨iy', ix', i1, i2, i3, i4, i5, hy', hx', -, -, -, -, -, hm⟩ :=
    loadOk_some hk
  obtain rfl : iy = iy' := by rw [hy] at hy'; exact Option.some.inj hy'
  obtain rfl : ix = ix' := by rw [hx] at hx'; exact Option.some.inj hx'
  have hgi := mapOption_some_get? hm i
  rw [hr, hrow] at hgi
  have hmk : mkRecord T iy ix i1 i2 i3 i4 i5 row = some r := by
    simpa using hgi.symm
  obtain ⟨e, n, he, hn, -, -, -, -, -, hlat, hlon⟩ := mkRecord_some hmk
  exact ⟨e, n, he, hn, hlat, hlon⟩

/-- Witness for `C1_coords_unfiltered` at the concrete one-row table. -/
theorem C1_coords_unfiltered_witness :
    loadOk Tid tblA = some [recA] ∧
    colIdx tblA "y좌표" = some 5 ∧ colIdx tblA "x좌표" = some 6 ∧
    [recA].get? 0 = some recA ∧ tblA.rows.get? 0 = some rowA ∧
    ∃ e n, rowA.get? 5 = some (Cell.num e) ∧
      rowA.get? 6 = some (Cell.num n) ∧
      recA.lat = (Tid e n).2 ∧ recA.lon = (Tid e n).1 :=
  ⟨rfl, rfl, rfl, rfl, rfl,
    C1_coords_unfiltered Tid tblA [recA] 5 6 0 recA rowA rfl rfl rfl rfl rfl⟩

/-- A table whose headers would be resolved by the specified keyword scan
(`위도`, `경도`) but which lacks the fixed headers the code requires. -/
def tblKW : Table := ⟨["위도", "경도"], [[Cell.num 37, Cell.num 127]]⟩

/-- Claim C2, counterexample: the specified inference (keyword scan with
value-range fallback) resolves latitude and longitude on `tblKW`, yet the
code — which only ever reads the fixed headers `y좌표` and `x좌표` —
fails on it and returns the empty dataset via its catch-all handler; no
`ColumnInferenceError` exists anywhere in the code. -/
theorem C2_counterexample :
    specInferLatLon tblKW = some (0, 1) ∧
    load_and_process_data Tid (some (fun _ => some tblKW)) = [] :=
  ⟨rfl, rfl⟩

/-- Claim C2, amended: the loader identifies the coordinate columns only
as the fixed headers `y좌표` and `x좌표`; when either is absent the load
fails into an empty dataset (catch-all `except`), with no keyword
scanning, no value-range fallback and no `ColumnInferenceError`. -/
theorem C2_fixed_columns (T : ℚ → ℚ → ℚ × ℚ) (t : Table)
    (h : colIdx t "y좌표" = none ∨ colIdx t "x좌표" = none) :
    processTable T t = [] := by
  rcases h with h | h
  · simp [processTable, loadOk, h]
  · cases hy : colIdx t "y좌표" with
    | none => simp [processTable, loadOk, hy]
    | some iy => simp [processTable, loadOk, hy, h]

/-- Witness for `C2_fixed_columns` at the concrete table `tblKW`. -/
theorem C2_fixed_columns_witness :
    (colIdx tblKW "y좌표" = none ∨ colIdx tblKW "x좌표" = none) ∧
    processTable Tid tblKW = [] :=
  ⟨Or.inl rfl, C2_fixed_columns Tid tblKW (Or.inl rfl)⟩

/-- A row whose planar values land far outside South Korea under the
transform, under either axis ordering. -/
def rowB : List Cell :=
  [Cell.str "B", Cell.str "서울", Cell.str "D", Cell.num 80, Cell.num 5,
   Cell.num 1000000, Cell.num 2000000]

/-- A one-row table around `rowB`. -/
def tblB : Table := ⟨headers7, [rowB]⟩

/-- The record the loader produces from `rowB` under `Tid`. -/
def recB : OutRecord :=
  { nodeName := Cell.str "B", nodeLoc := Cell.str "서울",
    grade := Cell.str "D", risk := Cell.num 80, accidents := Cell.num 5,
    lat := 2000000, lon := 1000000 }

/-- Claim C3, counterexample: the code tries exactly one projection and
one axis ordering; a record whose transformed coordinates are out of
bounds under both axis orderings is not excluded — it stays in the
dataset, and no exclusion count exists. -/
theorem C3_counterexample :
    load_and_process_data Tid (some (fun _ => some tblB)) = [recB] ∧
    ¬ inBounds recB.lat recB.lon ∧ ¬ inBounds recB.lon recB.lat :=
  ⟨rfl, by decide, by decide⟩

/-- Claim C3, amended: the normalizer applies one fixed projection with one
fixed axis assignment and never excludes a record for being out of bounds:
a loaded record with out-of-bounds coordinates is still a member of the
final dataset. -/
theorem C3_no_exclusion (T : ℚ → ℚ → ℚ × ℚ) (t : Table)
    (recs : List OutRecord) (i : Nat) (r : OutRecord)
    (hk : loadOk T t = some recs) (hr : recs.get? i = some r)
    (_hob : ¬ inBounds r.lat r.lon) : r ∈ processTable T t := by
  have hpt : processTable T t = recs := by simp [processTable, hk]
  rw [hpt]
  exact List.get?_mem hr

/-- Witness for `C3_no_exclusion` at the concrete table `tblB`. -/
theorem C3_no_exclusion_witness :
    loadOk Tid tblB = some [recB] ∧ [recB].get? 0 = some recB ∧
    ¬ inBounds recB.lat recB.lon ∧ recB ∈ processTable Tid tblB :=
  ⟨rfl, rfl, by decide,
    C3_no_exclusion Tid tblB [recB] 0 recB rfl rfl (by decide)⟩

/-- A second row carrying the same `노드명` as `rowA` but different data. -/
def rowA2 : List Cell :=
  [Cell.str "A", Cell.str "부산", Cell.str "D", Cell.num 80, Cell.num 5,
   Cell.num 210000, Cell.num 440000]

/-- A table with two rows of the same name. -/
def tblC : Table := ⟨headers7, [rowA, rowA2]⟩

/-- The record the loader produces from `rowA2` under `Tid`. -/
def recA2 : OutRecord :=
  { nodeName := Cell.str "A", nodeLoc := Cell.str "부산",
    grade := Cell.str "D", risk := Cell.num 80, accidents := Cell.num 5,
    lat := 440000, lon := 210000 }

/-- Claim C4, counterexample: the loader performs no deduplication — two
rows with the same `노드명` both survive, so the number of distinct names
in the output is smaller than the output's length. -/
theorem C4_counterexample :
    load_and_process_data Tid (some (fun _ => some tblC)) = [recA, recA2] ∧
    ((load_and_process_data Tid (some (fun _ => some tblC))).map
        OutRecord.nodeName).dedup.length = 1 ∧
    (load_and_process_data Tid (some (fun _ => some tblC))).length = 2 :=
  ⟨rfl, by decide, rfl⟩

/-- Claim C4, amended: the loader keeps duplicates: for every cell value,
the number of output records carrying that value as their name equals the
number of input rows carrying it in the name column — nothing is
collapsed. -/
theorem C4_no_dedup (T : ℚ → ℚ → ℚ × ℚ) (t : Table)
    (recs : List OutRecord) (i1 : Nat) (c : Cell)
    (hk : loadOk T t = some recs) (h1 : colIdx t "노드명" = some i1) :
    recs.countP (fun r => decide (r.nodeName = c)) =
      t.rows.countP (fun row => decide (row.get? i1 = some c)) := by
  obtain ⟨iy, ix, i1', i2, i3, i4, i5, hy, hx, h1', h2, h3, h4, h5, hm⟩ :=
    loadOk_some hk
  obtain rfl : i1 = i1' := by rw [h1] at h1'; exact Option.some.inj h1'
  refine mapOption_countP ?_ hm
  intro row r hr
  obtain ⟨e, n, -, -, hname, -, -, -, -, -, -⟩ := mkRecord_some hr
  exact decide_eq_decide.mpr (by rw [hname]; simp)

/-- Witness for `C4_no_dedup` at the concrete duplicate-name table. -/
theorem C4_no_dedup_witness :
    loadOk Tid tblC = some [recA, recA2] ∧
    colIdx tblC "노드명" = some 0 ∧
    [recA, recA2].countP (fun r => decide (r.nodeName = Cell.str "A")) =
      tblC.rows.countP
        (fun row => decide (row.get? 0 = some (Cell.str "A"))) :=
  ⟨rfl, rfl, C4_no_dedup Tid tblC [recA, recA2] 0 (Cell.str "A") rfl rfl⟩

/-- A file readable only under the first legacy Korean encoding. -/
def fileKorean : FileModel := fun e =>
  match e with
  | Encoding.cp949 => some tblA
  | _ => none

/-- Claim C5, counterexample: the specified encoding chain would decode the
cp949-only file (to a table the processing stage handles fine), but the
code makes a single UTF-8 attempt, so the load ends empty; no fallback
encodings are tried and no `UnreadableFileError` exists. -/
theorem C5_counterexample :
    specDecode fileKorean = some tblA ∧
    processTable Tid tblA = [recA] ∧
    load_and_process_data Tid (some fileKorean) = [] :=
  ⟨rfl, rfl, rfl⟩

/-- Claim C5, amended: the loader attempts exactly one decode, with
pandas' default UTF-8: its result depends only on the file's UTF-8 decode
(other candidate encodings are never consulted), and a missing file yields
the empty dataset, not an `UnreadableFileError`. -/
theorem C5_utf8_only (T : ℚ → ℚ → ℚ × ℚ) (d d' : FileModel)
    (h : d Encoding.utf8 = d' Encoding.utf8) :
    load_and_process_data T (some d) = load_and_process_data T (some d') ∧
    load_and_process_data T none = [] :=
  ⟨by simp [load_and_process_data, read_csv, h], rfl⟩

/-- A file decoding to `tblA` under every encoding. -/
def fileAllA : FileModel := fun _ => some tblA

/-- A file decoding to `tblA` under UTF-8 only. -/
def fileUtf8A : FileModel := fun e =>
  match e with
  | Encoding.utf8 => some tblA
  | _ => none

/-- Witness for `C5_utf8_only` at two concrete files agreeing on UTF-8. -/
theorem C5_utf8_only_witness :
    fileAllA Encoding.utf8 = fileUtf8A Encoding.utf8 ∧
    load_and_process_data Tid (some fileAllA) =
      load_and_process_data Tid (some fileUtf8A) ∧
    load_and_process_data Tid none = [] :=
  ⟨rfl, C5_utf8_only Tid fileAllA fileUtf8A rfl⟩

/-- A row whose `y좌표` cell does not parse as a number. -/
def rowBad : List Cell :=
  [Cell.str "C", Cell.str "서울", Cell.str "B", Cell.num 10, Cell.num 1,
   Cell.str "N/A", Cell.num 440000]

/-- A table with one good row and one row with a non-numeric coordinate. -/
def tblD : Table := ⟨headers7, [rowA, rowBad]⟩

/-- Claim C6, counterexample: a single non-numeric coordinate cell aborts
the whole load (the catch-all returns the empty dataset), dropping even
the perfectly valid first row — instead of the claimed per-record,
non-fatal exclusion, under which the same table minus the bad row loads to
one record. -/
theorem C6_counterexample :
    load_and_process_data Tid (some (fun _ => some tblD)) = [] ∧
    load_and_process_data Tid fileA = [recA] :=
  ⟨rfl, rfl⟩

/-- Claim C6, amended: a coordinate cell that fails to parse as a number
is fatal for the whole load — whenever any row's `y좌표` or `x좌표` cell
is a string, `load_and_process_data` returns the empty dataset; there is
no per-record exclusion. -/
theorem C6_fatal_bad_cell (T : ℚ → ℚ → ℚ × ℚ) (t : Table)
    (i : Nat) (row : List Cell) (s : String)
    (hrow : t.rows.get? i = some row)
    (h : (∃ iy, colIdx t "y좌표" = some iy ∧
            row.get? iy = some (Cell.str s)) ∨
         (∃ ix, colIdx t "x좌표" = some ix ∧
            row.get? ix = some (Cell.str s))) :
    processTable T t = [] := by
  unfold processTable
  cases hk : loadOk T t with
  | none => rfl
  | some recs =>
    exfalso
    obtain ⟨iy', ix', i1, i2, i3, i4, i5, hy', hx', h1, h2, h3, h4, h5, hm⟩ :=
      loadOk_some hk
    have hmem : row ∈ t.rows := List.get?_mem hrow
    have hdone : mkRecord T iy' ix' i1 i2 i3 i4 i5 row = none := by
      rcases h with ⟨iy, hy, hcell⟩ | ⟨ix, hx, hcell⟩
      · obtain rfl : iy = iy' := by rw [hy] at hy'; exact Option.some.inj hy'
        simp only [mkRecord, bind, hcell, Option.some_bind]
        cases row.get? ix' <;> simp [getNum]
      · obtain rfl : ix = ix' := by rw [hx] at hx'; exact Option.some.inj hx'
        simp only [mkRecord, bind, hcell, Option.some_bind]
        cases row.get? iy' with
        | none => rfl
        | some yc =>
          simp only [Option.some_bind]
          cases getNum yc <;> simp [getNum]
    rw [mapOption_eq_none_of_mem hmem hdone] at hm
    exact Option.noConfusion hm

/-- A row whose `x좌표` cell does not parse as a number. -/
def rowBadX : List Cell :=
  [Cell.str "D", Cell.str "서울", Cell.str "A", Cell.num 5, Cell.num 0,
   Cell.num 209659, Cell.str "누락"]

/-- A one-row table with a non-numeric `x좌표` cell. -/
def tblX : Table := ⟨headers7, [rowBadX]⟩

/-- Witness for `C6_fatal_bad_cell`, exercising both branches: a
non-numeric `y좌표` cell (table `tblD`) and a non-numeric `x좌표` cell
(table `tblX`). -/
theorem C6_fatal_bad_cell_witness :
    (tblD.rows.get? 1 = some rowBad ∧
      colIdx tblD "y좌표" = some 5 ∧
      rowBad.get? 5 = some (Cell.str "N/A") ∧
      processTable Tid tblD = []) ∧
    (tblX.rows.get? 0 = some rowBadX ∧
      colIdx tblX "x좌표" = some 6 ∧
      rowBadX.get? 6 = some (Cell.str "누락") ∧
      processTable Tid tblX = []) :=
  ⟨⟨rfl, rfl, rfl,
      C6_fatal_bad_cell Tid tblD 1 rowBad "N/A" rfl (Or.inl ⟨5, rfl, rfl⟩)⟩,
   ⟨rfl, rfl, rfl,
      C6_fatal_bad_cell Tid tblX 0 rowBadX "누락" rfl
        (Or.inr ⟨6, rfl, rfl⟩)⟩⟩

theorem withinRadius_self (p : ℚ × ℚ) : withinRadius p p = true := by
  have h : (0 : ℚ) ≤ nearRadius * nearRadius := mul_self_nonneg nearRadius
  simp [withinRadius, sub_self, h]

/-- A dataset record with a low risk score sitting directly on a path
vertex. -/
def recLow : OutRecord :=
  { nodeName := Cell.str "P", nodeLoc := Cell.str "서울",
    grade := Cell.str "B", risk := Cell.num 20, accidents := Cell.num 1,
    lat := 37, lon := 127 }

/-- Claim C7, counterexample: the displayed "nearby risk" count is
`len(nearby_risks)` with no risk threshold — a nearby record with risk
score 20 (well below 70) is counted, although the number of nearby
records with risk at least 70 is zero. -/
theorem C7_counterexample :
    detectedCount [recLow] [(37, 127)] = 1 ∧
    (nearbyRisks [recLow] [(37, 127)]).countP riskAtLeast70 = 0 := by
  have hw : withinRadius ((37 : ℚ), (127 : ℚ)) ((37 : ℚ), (127 : ℚ)) =
      true := withinRadius_self _
  constructor
  · simp [detectedCount, nearbyRisks, sampledPath, recLow, hw]
  · simp [nearbyRisks, sampledPath, recLow, hw, riskAtLeast70,
      List.countP_cons]
    norm_num

/-- Claim C7, amended: the reported nearby-risk count applies no threshold
at all — it is invariant under arbitrary replacement of every record's
risk score. -/
theorem C7_count_ignores_risk (data : List OutRecord)
    (path : List (ℚ × ℚ)) (g : OutRecord → Cell) :
    detectedCount (data.map (fun r => { r with risk := g r })) path =
      detectedCount data path := by
  unfold detectedCount nearbyRisks
  induction data with
  | nil => rfl
  | cons a as ih =>
    simp only [List.map_cons, List.filter_cons]
    have hsame : ((sampledPath path).any
        (withinRadius (({ a with risk := g a } : OutRecord).lat,
          ({ a with risk := g a } : OutRecord).lon))) =
        (sampledPath path).any (withinRadius (a.lat, a.lon)) := rfl
    rw [hsame]
    cases h : (sampledPath path).any (withinRadius (a.lat, a.lon)) with
    | false => simpa [h] using ih
    | true => simpa [h] using ih

/-- A routing-service response: 6.3 km, 600 seconds. -/
def routeB6300 : RouteData := ⟨[], 6300, 600⟩

/-- A routing-service response with a different distance but the same
duration. -/
def routeBFar : RouteData := ⟨[], 999999, 600⟩

/-- Claim C8, counterexample: the displayed time is the routing service's
`duration` divided by 60 — here 10 minutes for a 6.3 km response — not
the claimed distance-over-walking-speed estimate, which would give 94.5
minutes for the same distance. -/
theorem C8_counterexample :
    duration_min routeB6300 = 10 ∧
    specWalkMinutes (distance_km routeB6300) = 189 / 2 ∧
    (10 : ℚ) ≠ 189 / 2 := by
  refine ⟨?_, ?_, by norm_num⟩
  · norm_num [duration_min, routeB6300]
  · norm_num [specWalkMinutes, distance_km, routeB6300]

/-- Claim C8, amended: the estimated travel time is taken from the routing
service's response, not computed from the distance: it depends only on the
response's `duration` field (no local speed constant, no mode parameter
anywhere in the computation). -/
theorem C8_duration_from_response (r r' : RouteData)
    (h : r.duration = r'.duration) : duration_min r = duration_min r' := by
  simp [duration_min, h]

/-- Witness for `C8_duration_from_response` at two concrete responses with
equal durations and very different distances. -/
theorem C8_duration_from_response_witness :
    routeB6300.duration = routeBFar.duration ∧
    duration_min routeB6300 = duration_min routeBFar :=
  ⟨rfl, C8_duration_from_response routeB6300 routeBFar rfl⟩
